import Mathlib

/-!
Verification of the nelko-p21 label printer tool (src/p21.py and
src/simple_print.py) against its natural-language specification.

Images are embedded as a structure carrying a width, a height and a
grayscale pixel function (values 0..255); byte buffers are lists of
naturals below 256.  Pure Python functions become Lean functions; the
serial device is modelled by an outcome per attempt, with a caught
exception producing an Option and an uncaught one an Except.
-/

-- Printer / label geometry constants (src/p21.py lines 11-16).

def LABEL_WIDTH_PX : Nat := 284

def LABEL_HEIGHT_PX : Nat := 96

def ROTATED_WIDTH_PX : Nat := LABEL_HEIGHT_PX

def ROTATED_HEIGHT_PX : Nat := LABEL_WIDTH_PX

def BYTES_PER_ROW : Nat := ROTATED_WIDTH_PX / 8

def EXPECTED_BYTES : Nat := ROTATED_HEIGHT_PX * BYTES_PER_ROW

/-- A grayscale raster image: pixel values are 0..255, addressed as
pix x y with x a column below width and y a row below height.  An image
freshly converted by ImageOps.grayscale is an arbitrary such image. -/
structure Img where
  width : Nat
  height : Nat
  pix : Nat → Nat → Nat

/-- Models PIL Image.rotate (90, expand=True): a counterclockwise quarter
turn; the dimensions swap and no resampling occurs. -/
def rotate90_expand (img : Img) : Img :=
  ⟨img.height, img.width, fun x y => img.pix (img.width - 1 - y) x⟩

/-- Models PIL Image.rotate (-90, expand=True): a clockwise quarter turn;
the dimensions swap and no resampling occurs. -/
def rotate_cw (img : Img) : Img :=
  ⟨img.height, img.width, fun x y => img.pix y (img.height - 1 - x)⟩

/-- The orientation step shared by src/p21.py lines 35-36 and
src/simple_print.py lines 14-15: rotate 90 degrees, with expansion, exactly
when the image is strictly wider than tall. -/
def rotate_step (img : Img) : Img :=
  if img.width > img.height then rotate90_expand img else img

/-- Models PIL Image.resize with NEAREST resampling (no smoothing):
coordinate subsampling to the requested size. -/
def resize_nearest (img : Img) (w h : Nat) : Img :=
  ⟨w, h, fun x y => img.pix (x * img.width / w) (y * img.height / h)⟩

/-- Models PIL Image.thumbnail ((96, 284), ...) as called on line 38 of
src/p21.py: PIL returns the image unchanged when it already fits inside
the bounding box, and otherwise downscales it preserving the aspect
ratio (the resampling itself is modelled by nearest subsampling; the
claims below never depend on that branch). -/
def thumbnail_step (img : Img) : Img :=
  if ROTATED_WIDTH_PX ≥ img.width ∧ ROTATED_HEIGHT_PX ≥ img.height then img
  else if ROTATED_WIDTH_PX * img.height ≥ ROTATED_HEIGHT_PX * img.width then
    resize_nearest img
      (max 1 ((ROTATED_HEIGHT_PX * img.width + img.height / 2) / img.height))
      ROTATED_HEIGHT_PX
  else
    resize_nearest img ROTATED_WIDTH_PX
      (max 1 ((ROTATED_WIDTH_PX * img.height + img.width / 2) / img.width))

/-- The thresholding step of src/p21.py line 39:
img.point (lambda p: 0 if p < threshold else 255, mode 1). -/
def point_threshold (threshold : Nat) (img : Img) : Img :=
  ⟨img.width, img.height, fun x y => if img.pix x y < threshold then 0 else 255⟩

/-- One bit of the packed raster: 1 when the column is inside the image
and the pixel is nonzero (white in mode 1), 0 otherwise. -/
def bit_at (img : Img) (x y : Nat) : Nat :=
  if x < img.width ∧ img.pix x y ≠ 0 then 1 else 0

def bytes_per_row_of (w : Nat) : Nat := (w + 7) / 8

/-- Byte j of row y of the packed raster, MSB first, as produced by
PIL Image.tobytes on a mode-1 image. -/
def pack_byte (img : Img) (y j : Nat) : Nat :=
  128 * bit_at img (8 * j) y + 64 * bit_at img (8 * j + 1) y +
  32 * bit_at img (8 * j + 2) y + 16 * bit_at img (8 * j + 3) y +
  8 * bit_at img (8 * j + 4) y + 4 * bit_at img (8 * j + 5) y +
  2 * bit_at img (8 * j + 6) y + bit_at img (8 * j + 7) y

/-- Models PIL Image.tobytes on a mode-1 image: rows packed in order,
8 pixels per byte, MSB first (row-major flat indexing). -/
def tobytes (img : Img) : List Nat :=
  (List.range (bytes_per_row_of img.width * img.height)).map
    (fun i => pack_byte img (i / bytes_per_row_of img.width)
                            (i % bytes_per_row_of img.width))

/-- Python bytes.ljust: pad on the right with the fill byte up to the
requested width; a buffer at least that long is returned unchanged. -/
def ljust (b : List Nat) (width fill : Nat) : List Nat :=
  if width ≤ b.length then b else b ++ List.replicate (width - b.length) fill

/-- The packing clamp of src/p21.py lines 45-48 (and 91-94): pad an
undersized buffer with 0xFF up to EXPECTED_BYTES, truncate an oversized
one to EXPECTED_BYTES. -/
def clamp_to_expected (b : List Nat) : List Nat :=
  if b.length < EXPECTED_BYTES then ljust b EXPECTED_BYTES 255
  else if b.length > EXPECTED_BYTES then b.take EXPECTED_BYTES
  else b

/-- Bytes of a string, one natural per character. -/
def strBytes (s : String) : List Nat := s.data.map Char.toNat

/-- Outcome of one attempt to talk to the serial device: either a
response line was read back, or opening/writing raised SerialException. -/
inductive SerialOutcome where
  | line (resp : List Nat)
  | failure (msg : String)
deriving DecidableEq

namespace P21

/-- src/p21.py load_image (lines 24-50): grayscale input, orient the long
side vertically, fit inside 96 by 284, threshold to black and white, show
a clockwise-rotated copy when previewing, pack and clamp to 3408 bytes.
Returns the packed bytes together with the list of displayed images. -/
def load_image (img : Img) (preview : Bool) (threshold : Nat) :
    List Nat × List Img :=
  let bw := point_threshold threshold (thumbnail_step (rotate_step img))
  let shown := if preview then [rotate_cw bw] else []
  (clamp_to_expected (tobytes bw), shown)

/-- The text bounding box returned by ImageDraw.textbbox at (0, 0). -/
structure BBox where
  x0 : Int
  y0 : Int
  x1 : Int
  y1 : Int

/-- Model of a loaded TrueType font (a font path and size in the source):
the bounding box it gives a text, and whether drawing the text at a given
anchor blackens a given canvas pixel. -/
structure FontModel where
  bbox : String → BBox
  glyph : String → Int → Int → Nat → Nat → Bool

/-- The drawing part of src/p21.py render_text_label (lines 68-79): a white
mode-1 canvas, the text drawn in black centred on both axes using floor
division, exactly as the source computes x and y. -/
def text_canvas (fm : FontModel) (text : String) (width height : Nat) : Img :=
  let bb := fm.bbox text
  let text_w := bb.x1 - bb.x0
  let text_h := bb.y1 - bb.y0
  let x := ((width : Int) - text_w).fdiv 2 - bb.x0
  let y := ((height : Int) - text_h).fdiv 2 - bb.y0
  ⟨width, height, fun px py => if fm.glyph text x y px py then 0 else 1⟩

/-- src/p21.py render_text_label (lines 53-96): draw the centred text,
show the readable canvas when previewing, rotate clockwise to printer
orientation, rescale without smoothing if the size is not 96 by 284, pack
and clamp to 3408 bytes. -/
def render_text_label (fm : FontModel) (text : String) (width height : Nat)
    (preview : Bool) : List Nat × List Img :=
  let img := text_canvas fm text width height
  let shown := if preview then [img] else []
  let rotated := rotate_cw img
  let rotated2 :=
    if (rotated.width, rotated.height) ≠ (ROTATED_WIDTH_PX, ROTATED_HEIGHT_PX)
    then resize_nearest rotated ROTATED_WIDTH_PX ROTATED_HEIGHT_PX
    else rotated
  (clamp_to_expected (tobytes rotated2), shown)

/-- src/p21.py build_print_command (lines 99-114), the f-string written as
its concatenation of literal and interpolated parts. -/
def build_print_command (imagedata : List Nat) (density copies : Int) :
    List Nat :=
  strBytes ("SIZE 14.0 mm,40.0 mm\r\n") ++
  strBytes ("GAP 5.0 mm,0 mm\r\n") ++
  strBytes ("DIRECTION 1,1\r\n") ++
  strBytes ("DENSITY " ++ toString density ++ "\r\n") ++
  strBytes ("CLS\r\n") ++
  strBytes ("BITMAP 0,0," ++ toString BYTES_PER_ROW ++ "," ++
            toString ROTATED_HEIGHT_PX ++ ",0,") ++
  imagedata ++
  strBytes ("\r\n") ++
  strBytes ("PRINT " ++ toString copies ++ "\r\n")

/-- src/p21.py send_to_printer (lines 117-127): the device is consulted
once (attempt 0); a SerialException is caught, the diagnostic
Serial error: ... is printed, and None is returned.  The result pairs the
returned Optional response with the printed log lines. -/
def send_to_printer (dev : Nat → SerialOutcome) (payload : List Nat) :
    Option (List Nat) × List String :=
  match dev 0 with
  | SerialOutcome.line r => (some r, [])
  | SerialOutcome.failure e => (none, ["Serial error: " ++ e])

/-- The response display at the end of src/p21.py main (lines 221-222):
print the response only when it is not None. -/
def main_response_output (r : Option (List Nat)) : List (List Nat) :=
  match r with
  | some b => [b]
  | none => []

end P21

namespace SimplePrint

/-- The packing tail of src/simple_print.py load_image (lines 21-25),
taking the packed bytes of the thumbnailed 1-bit image: the source pads
with bitdata.ljust (3408 - len bitdata, 0xFF) and has no truncation
branch. -/
def pad_bitdata (bitdata : List Nat) : List Nat :=
  if bitdata.length < 3408 then ljust bitdata (3408 - bitdata.length) 255
  else bitdata

/-- src/simple_print.py build_print_command (lines 27-36); the BITMAP
line of this file carries mode flag 1. -/
def build_print_command (imagedata : List Nat) (density copies : Int) :
    List Nat :=
  strBytes ("SIZE 14.0 mm,40.0 mm\r\n") ++
  strBytes ("GAP 5.0 mm,0 mm\r\n") ++
  strBytes ("DIRECTION 1,1\r\n") ++
  strBytes ("DENSITY " ++ toString density ++ "\r\n") ++
  strBytes ("CLS\r\n") ++
  strBytes ("BITMAP 0,0,12,284,1,") ++
  imagedata ++
  strBytes ("\r\n") ++
  strBytes ("PRINT " ++ toString copies ++ "\r\n")

/-- The module-level serial step of src/simple_print.py (lines 41-45):
there is no exception handler, so a SerialException on open or write
propagates out of the script. -/
def run_serial (dev : Nat → SerialOutcome) (command : List Nat) :
    Except String (List Nat) :=
  match dev 0 with
  | SerialOutcome.line r => Except.ok r
  | SerialOutcome.failure e => Except.error e

end SimplePrint

/-- The exact command layout asserted by the spec wire-protocol section,
with the BITMAP mode flag left as a parameter so that the two source
framers can be compared against it; the spec asserts mode 0. -/
def claimed_command_mode (mode : Nat) (density copies : Int)
    (bitmap : List Nat) : List Nat :=
  strBytes ("SIZE 14.0 mm,40.0 mm\r\n") ++
  strBytes ("GAP 5.0 mm,0 mm\r\n") ++
  strBytes ("DIRECTION 1,1\r\n") ++
  strBytes ("DENSITY " ++ toString density ++ "\r\n") ++
  strBytes ("CLS\r\n") ++
  strBytes ("BITMAP 0,0,12,284," ++ toString mode ++ ",") ++
  bitmap ++
  strBytes ("\r\n") ++
  strBytes ("PRINT " ++ toString copies ++ "\r\n")

/-- An all-white grayscale image of size 284 by 96. -/
def white_284x96 : Img := ⟨284, 96, fun _ _ => 255⟩

-- Helper lemmas.

lemma tobytes_length (img : Img) :
    (tobytes img).length = bytes_per_row_of img.width * img.height := by
  simp only [tobytes, List.length_map, List.length_range]

lemma clamp_of_length_eq (b : List Nat) (h : b.length = EXPECTED_BYTES) :
    clamp_to_expected b = b := by
  unfold clamp_to_expected
  rw [h]
  simp

lemma pack_byte_white (img : Img) (y j : Nat) (h : 8 * j + 7 < img.width)
    (hp : ∀ x y, img.pix x y = 255) : pack_byte img y j = 255 := by
  have hb : ∀ x, x < img.width → bit_at img x y = 1 := by
    intro x hx
    unfold bit_at
    rw [if_pos ⟨hx, by rw [hp]; norm_num⟩]
  unfold pack_byte
  rw [hb (8 * j) (by omega), hb (8 * j + 1) (by omega), hb (8 * j + 2) (by omega),
      hb (8 * j + 3) (by omega), hb (8 * j + 4) (by omega), hb (8 * j + 5) (by omega),
      hb (8 * j + 6) (by omega), hb (8 * j + 7) (by omega)]

lemma tobytes_white (img : Img) (hw : img.width = 96) (hh : img.height = 284)
    (hp : ∀ x y, img.pix x y = 255) : tobytes img = List.replicate 3408 255 := by
  rw [List.eq_replicate_iff]
  constructor
  · rw [tobytes_length, hw, hh]
    norm_num [bytes_per_row_of]
  · intro b hb
    simp only [tobytes, List.mem_map, List.mem_range] at hb
    obtain ⟨i, hi, rfl⟩ := hb
    apply pack_byte_white
    · rw [hw] at hi ⊢
      have h12 : bytes_per_row_of 96 = 12 := by norm_num [bytes_per_row_of]
      rw [h12] at hi ⊢
      omega
    · exact hp

lemma load_image_fst (img : Img) (pv : Bool) (t : Nat) :
    (P21.load_image img pv t).1 = clamp_to_expected (tobytes (point_threshold t
      (thumbnail_step (rotate_step img)))) := rfl

lemma render_text_label_fst (fm : P21.FontModel) (text : String) (w h : Nat)
    (pv : Bool) :
    (P21.render_text_label fm text w h pv).1 = clamp_to_expected (tobytes
      (if ((rotate_cw (P21.text_canvas fm text w h)).width,
           (rotate_cw (P21.text_canvas fm text w h)).height) ≠
           (ROTATED_WIDTH_PX, ROTATED_HEIGHT_PX)
       then resize_nearest (rotate_cw (P21.text_canvas fm text w h))
              ROTATED_WIDTH_PX ROTATED_HEIGHT_PX
       else rotate_cw (P21.text_canvas fm text w h))) := rfl

-- Claim theorems.

/-- Claim C1 (code bug in src/simple_print.py): the claim says a packed
buffer of fewer than 3408 bytes is padded with 0xFF up to 3408, and the
comment in the source says the same, but the code calls
bitdata.ljust (3408 - len bitdata, 0xFF): on the 852 packed bytes of a
48 by 142 thumbnail it pads only to 3408 - 852 = 2556 bytes.  This
theorem evaluates the padding stage at that failing input.  (The p21.py
stage, clamp_to_expected, does satisfy the claim.) -/
theorem c1_simple_print_pad_underpads :
    (SimplePrint.pad_bitdata (List.replicate 852 0)).length = 2556 := by
  unfold SimplePrint.pad_bitdata ljust
  rw [List.length_replicate]
  norm_num

/-- Claim C2, counterexample: the framer of src/simple_print.py does not
produce the layout the claim asserts, because its BITMAP line carries
mode flag 1 where the claim requires 0; shown at the empty bitmap with
density 7 and one copy. -/
theorem c2_mode_flag_counterexample :
    SimplePrint.build_print_command ([]) 7 1 ≠ claimed_command_mode 0 7 1 ([]) := by
  decide

/-- Claim C2 as amended: the framer of src/p21.py produces exactly the
claimed layout with BITMAP mode flag 0, and the framer of
src/simple_print.py produces the same layout except that its BITMAP mode
flag is 1. -/
theorem c2_framer_layout_amended (img : List Nat) (d c : Int) :
    P21.build_print_command img d c = claimed_command_mode 0 d c img ∧
    SimplePrint.build_print_command img d c = claimed_command_mode 1 d c img := by
  have h0 : strBytes ("BITMAP 0,0," ++ toString BYTES_PER_ROW ++ "," ++
      toString ROTATED_HEIGHT_PX ++ ",0,") =
      strBytes ("BITMAP 0,0,12,284," ++ toString (0 : Nat) ++ ",") := by decide
  have h1 : strBytes ("BITMAP 0,0,12,284,1,") =
      strBytes ("BITMAP 0,0,12,284," ++ toString (1 : Nat) ++ ",") := by decide
  constructor
  · unfold P21.build_print_command claimed_command_mode
    rw [h0]
  · unfold SimplePrint.build_print_command claimed_command_mode
    rw [h1]

/-- Claim C3: for every bitmap, density and copies count, both framers
embed the bitmap bytes unmodified as a contiguous run between the header
and the footer. -/
theorem c3_bitmap_embedded_verbatim (img : List Nat) (d c : Int) :
    (∃ pre post, P21.build_print_command img d c = pre ++ img ++ post) ∧
    (∃ pre post, SimplePrint.build_print_command img d c = pre ++ img ++ post) := by
  constructor
  · refine ⟨strBytes ("SIZE 14.0 mm,40.0 mm\r\n") ++
      strBytes ("GAP 5.0 mm,0 mm\r\n") ++
      strBytes ("DIRECTION 1,1\r\n") ++
      strBytes ("DENSITY " ++ toString d ++ "\r\n") ++
      strBytes ("CLS\r\n") ++
      strBytes ("BITMAP 0,0," ++ toString BYTES_PER_ROW ++ "," ++
                toString ROTATED_HEIGHT_PX ++ ",0,"),
      strBytes ("\r\n") ++ strBytes ("PRINT " ++ toString c ++ "\r\n"), ?_⟩
    simp [P21.build_print_command, List.append_assoc]
  · refine ⟨strBytes ("SIZE 14.0 mm,40.0 mm\r\n") ++
      strBytes ("GAP 5.0 mm,0 mm\r\n") ++
      strBytes ("DIRECTION 1,1\r\n") ++
      strBytes ("DENSITY " ++ toString d ++ "\r\n") ++
      strBytes ("CLS\r\n") ++
      strBytes ("BITMAP 0,0,12,284,1,"),
      strBytes ("\r\n") ++ strBytes ("PRINT " ++ toString c ++ "\r\n"), ?_⟩
    simp [SimplePrint.build_print_command, List.append_assoc]

/-- Claim C4: in the rasterizer of src/p21.py (the one with a
configurable luminance cutoff, default 180), the image fed to the
thresholding step is the downscaled grayscale image, every pixel
strictly below the cutoff becomes black (0) and every pixel at or above
it becomes white (255), a pure per-pixel decision. -/
theorem c4_threshold_black_white (img : Img) (pv : Bool) (t x y : Nat) :
    (P21.load_image img pv t).1 = clamp_to_expected (tobytes (point_threshold t
      (thumbnail_step (rotate_step img)))) ∧
    ((thumbnail_step (rotate_step img)).pix x y < t →
      (point_threshold t (thumbnail_step (rotate_step img))).pix x y = 0) ∧
    (t ≤ (thumbnail_step (rotate_step img)).pix x y →
      (point_threshold t (thumbnail_step (rotate_step img))).pix x y = 255) := by
  refine ⟨rfl, ?_, ?_⟩
  · intro hlt
    show (if (thumbnail_step (rotate_step img)).pix x y < t then 0 else 255) = 0
    rw [if_pos hlt]
  · intro hge
    show (if (thumbnail_step (rotate_step img)).pix x y < t then 0 else 255) = 255
    rw [if_neg (by omega)]

/-- Witness for C4: a dark pixel (100) below the default cutoff 180
becomes black, a light pixel (200) at or above it becomes white. -/
theorem c4_threshold_black_white_witness :
    (point_threshold 180 (thumbnail_step (rotate_step
      (⟨1, 1, fun _ _ => 100⟩ : Img)))).pix 0 0 = 0 ∧
    (point_threshold 180 (thumbnail_step (rotate_step
      (⟨1, 1, fun _ _ => 200⟩ : Img)))).pix 0 0 = 255 :=
  ⟨(c4_threshold_black_white ⟨1, 1, fun _ _ => 100⟩ false 180 0 0).2.1 (by decide),
   (c4_threshold_black_white ⟨1, 1, fun _ _ => 200⟩ false 180 0 0).2.2 (by decide)⟩

/-- Claim C5, counterexample: in src/simple_print.py the module-level
serial step has no exception handler, so a failure to open or write the
device is not caught by any transport code: it propagates out of the
script (here, the embedded flow returns the error instead of a caught
None). -/
theorem c5_uncaught_propagation :
    SimplePrint.run_serial (fun _ => SerialOutcome.failure ("device open failed")) ([]) =
      Except.error ("device open failed") := rfl

/-- Claim C5 as amended: in src/p21.py a failure to open or write is
caught, the diagnostic Serial error: ... is printed, None is returned so
no response is printed as a confirmation, and the outcome depends only on
the first device attempt (no retry); in src/simple_print.py the failure
propagates uncaught. -/
theorem c5_transport_error_amended (dev dev2 : Nat → SerialOutcome)
    (payload : List Nat) (e : String) :
    (dev 0 = SerialOutcome.failure e →
      P21.send_to_printer dev payload = (none, ["Serial error: " ++ e]) ∧
      P21.main_response_output (P21.send_to_printer dev payload).1 = []) ∧
    (∀ r, dev 0 = SerialOutcome.line r →
      P21.send_to_printer dev payload = (some r, [])) ∧
    (dev 0 = dev2 0 →
      P21.send_to_printer dev payload = P21.send_to_printer dev2 payload) ∧
    (dev 0 = SerialOutcome.failure e →
      SimplePrint.run_serial dev payload = Except.error e) := by
  refine ⟨?_, ?_, ?_, ?_⟩
  · intro h
    unfold P21.send_to_printer
    rw [h]
    exact ⟨rfl, rfl⟩
  · intro r h
    unfold P21.send_to_printer
    rw [h]
  · intro h
    unfold P21.send_to_printer
    rw [h]
  · intro h
    unfold SimplePrint.run_serial
    rw [h]

/-- Witness for C5: concrete failing and succeeding devices. -/
theorem c5_transport_error_witness :
    P21.send_to_printer (fun _ => SerialOutcome.failure ("boom")) ([]) =
      (none, ["Serial error: " ++ "boom"]) ∧
    P21.send_to_printer (fun _ => SerialOutcome.line ([79, 75])) ([]) =
      (some ([79, 75]), []) ∧
    SimplePrint.run_serial (fun _ => SerialOutcome.failure ("boom")) ([]) =
      Except.error ("boom") :=
  ⟨((c5_transport_error_amended (fun _ => SerialOutcome.failure ("boom"))
      (fun _ => SerialOutcome.failure ("boom")) ([]) ("boom")).1 rfl).1,
   (c5_transport_error_amended (fun _ => SerialOutcome.line ([79, 75]))
      (fun _ => SerialOutcome.line ([79, 75])) ([]) ("boom")).2.1 ([79, 75]) rfl,
   (c5_transport_error_amended (fun _ => SerialOutcome.failure ("boom"))
      (fun _ => SerialOutcome.failure ("boom")) ([]) ("boom")).2.2.2 rfl⟩

/-- Claim C6: for every integer density and copies count, including
out-of-range values, both framers embed the decimal rendering of the
given values verbatim inside the DENSITY and PRINT lines; no check,
clamp or rejection exists (the functions are total on all integers). -/
theorem c6_density_copies_verbatim (d c : Int) (img : List Nat) :
    (∃ pre post, P21.build_print_command img d c =
        pre ++ strBytes ("DENSITY " ++ toString d ++ "\r\n") ++ post) ∧
    (∃ pre post, P21.build_print_command img d c =
        pre ++ strBytes ("PRINT " ++ toString c ++ "\r\n") ++ post) ∧
    (∃ pre post, SimplePrint.build_print_command img d c =
        pre ++ strBytes ("DENSITY " ++ toString d ++ "\r\n") ++ post) ∧
    (∃ pre post, SimplePrint.build_print_command img d c =
        pre ++ strBytes ("PRINT " ++ toString c ++ "\r\n") ++ post) := by
  refine ⟨⟨strBytes ("SIZE 14.0 mm,40.0 mm\r\n") ++ strBytes ("GAP 5.0 mm,0 mm\r\n") ++
      strBytes ("DIRECTION 1,1\r\n"),
      strBytes ("CLS\r\n") ++
      strBytes ("BITMAP 0,0," ++ toString BYTES_PER_ROW ++ "," ++
                toString ROTATED_HEIGHT_PX ++ ",0,") ++
      img ++ strBytes ("\r\n") ++ strBytes ("PRINT " ++ toString c ++ "\r\n"), ?_⟩,
    ⟨strBytes ("SIZE 14.0 mm,40.0 mm\r\n") ++ strBytes ("GAP 5.0 mm,0 mm\r\n") ++
      strBytes ("DIRECTION 1,1\r\n") ++ strBytes ("DENSITY " ++ toString d ++ "\r\n") ++
      strBytes ("CLS\r\n") ++
      strBytes ("BITMAP 0,0," ++ toString BYTES_PER_ROW ++ "," ++
                toString ROTATED_HEIGHT_PX ++ ",0,") ++
      img ++ strBytes ("\r\n"), [], ?_⟩,
    ⟨strBytes ("SIZE 14.0 mm,40.0 mm\r\n") ++ strBytes ("GAP 5.0 mm,0 mm\r\n") ++
      strBytes ("DIRECTION 1,1\r\n"),
      strBytes ("CLS\r\n") ++ strBytes ("BITMAP 0,0,12,284,1,") ++
      img ++ strBytes ("\r\n") ++ strBytes ("PRINT " ++ toString c ++ "\r\n"), ?_⟩,
    ⟨strBytes ("SIZE 14.0 mm,40.0 mm\r\n") ++ strBytes ("GAP 5.0 mm,0 mm\r\n") ++
      strBytes ("DIRECTION 1,1\r\n") ++ strBytes ("DENSITY " ++ toString d ++ "\r\n") ++
      strBytes ("CLS\r\n") ++ strBytes ("BITMAP 0,0,12,284,1,") ++
      img ++ strBytes ("\r\n"), [], ?_⟩⟩
  · simp [P21.build_print_command, List.append_assoc]
  · simp [P21.build_print_command, List.append_assoc]
  · simp [SimplePrint.build_print_command, List.append_assoc]
  · simp [SimplePrint.build_print_command, List.append_assoc]

/-- Claim C7: the grayscale image is rotated 90 degrees exactly when it
is strictly wider than tall (the same conditional appears in both source
files), and after the step the long side is vertical: square or portrait
images pass through unchanged. -/
theorem c7_rotate_iff_landscape (img : Img) :
    (img.width > img.height → rotate_step img = rotate90_expand img) ∧
    (img.width ≤ img.height → rotate_step img = img) ∧
    (rotate_step img).width ≤ (rotate_step img).height := by
  refine ⟨?_, ?_, ?_⟩
  · intro h
    unfold rotate_step
    rw [if_pos h]
  · intro h
    unfold rotate_step
    rw [if_neg (by omega)]
  · unfold rotate_step
    by_cases h : img.width > img.height
    · rw [if_pos h]
      show img.height ≤ img.width
      omega
    · rw [if_neg h]
      omega

/-- Witness for C7: a 2 by 1 landscape image is rotated, a 1 by 2
portrait image and a 3 by 3 square image are not. -/
theorem c7_rotate_iff_landscape_witness :
    rotate_step (⟨2, 1, fun _ _ => 0⟩ : Img) =
      rotate90_expand (⟨2, 1, fun _ _ => 0⟩ : Img) ∧
    rotate_step (⟨1, 2, fun _ _ => 0⟩ : Img) = (⟨1, 2, fun _ _ => 0⟩ : Img) ∧
    rotate_step (⟨3, 3, fun _ _ => 0⟩ : Img) = (⟨3, 3, fun _ _ => 0⟩ : Img) :=
  ⟨(c7_rotate_iff_landscape ⟨2, 1, fun _ _ => 0⟩).1 (by decide),
   (c7_rotate_iff_landscape ⟨1, 2, fun _ _ => 0⟩).2.1 (by decide),
   (c7_rotate_iff_landscape ⟨3, 3, fun _ _ => 0⟩).2.1 (by decide)⟩

/-- Claim C8: the all-white 284 by 96 image runs through the whole
rasterizer of src/p21.py to a buffer of exactly 3408 bytes, every byte
0xFF = 255. -/
theorem c8_all_white_image :
    (P21.load_image white_284x96 false 180).1 = List.replicate 3408 255 := by
  have hbw : ∀ x y,
      (point_threshold 180 (thumbnail_step (rotate_step white_284x96))).pix x y = 255 :=
    fun _ _ => rfl
  have h := tobytes_white
    (point_threshold 180 (thumbnail_step (rotate_step white_284x96))) rfl rfl hbw
  rw [load_image_fst, h]
  exact clamp_of_length_eq _ (by simp only [List.length_replicate]; decide)

/-- Claim C9: for every input and every other argument, the packed byte
buffer returned by the image rasterizer and by the text renderer of
src/p21.py is the same with the preview flag on and off; the preview only
adds a displayed copy. -/
theorem c9_preview_independent_output (img : Img) (t : Nat)
    (fm : P21.FontModel) (text : String) (w h : Nat) :
    (P21.load_image img true t).1 = (P21.load_image img false t).1 ∧
    (P21.render_text_label fm text w h true).1 =
      (P21.render_text_label fm text w h false).1 :=
  ⟨rfl, rfl⟩

/-- Claim C10: with the default canvas dimensions 284 by 96, the
clockwise rotation in render_text_label always yields exactly 96 by 284,
so the no-smoothing rescale branch is skipped, and the packed bytes
number exactly 3408, so the padding and truncation branches are skipped:
the returned buffer is the raw packed rotation, untouched. -/
theorem c10_text_label_exact_fit (fm : P21.FontModel) (text : String) (pv : Bool) :
    (rotate_cw (P21.text_canvas fm text 284 96)).width = 96 ∧
    (rotate_cw (P21.text_canvas fm text 284 96)).height = 284 ∧
    (tobytes (rotate_cw (P21.text_canvas fm text 284 96))).length = 3408 ∧
    (P21.render_text_label fm text 284 96 pv).1 =
      tobytes (rotate_cw (P21.text_canvas fm text 284 96)) := by
  refine ⟨rfl, rfl, ?_, ?_⟩
  · rw [tobytes_length]
    show bytes_per_row_of 96 * 284 = 3408
    decide
  · have hlen : (tobytes (rotate_cw (P21.text_canvas fm text 284 96))).length =
        EXPECTED_BYTES := by
      rw [tobytes_length]
      show bytes_per_row_of 96 * 284 = EXPECTED_BYTES
      decide
    have hne : ¬(((rotate_cw (P21.text_canvas fm text 284 96)).width,
        (rotate_cw (P21.text_canvas fm text 284 96)).height) ≠
        (ROTATED_WIDTH_PX, ROTATED_HEIGHT_PX)) := fun hcontra => hcontra rfl
    rw [render_text_label_fst, if_neg hne]
    exact clamp_of_length_eq _ hlen
